import Mathlib

/-!
# Verification of the InstanceSet status-reconciliation pipeline

A shallow embedding of the InstanceSet controller's reconciliation
pipeline: the role-priority map, member-status computation and stable
sort, the revision-mapping serialization helper, and the five
reconcilers (meta-fix, revision-update, assistant-object,
replicas-alignment, status).  The reconciler implementations are
modelled from the system specification; where the specification is
silent or ambiguous, the expected values of the repository's own
status-reconciler test pin the behaviour.
-/

namespace InstanceSet

/-- Modelled from the spec: a declared role — "name + serviceable/writable
flags" (§3).  The spec distinguishes four rank classes (writable+serviceable,
serviceable-only, non-serviceable persistence, still catching up), so a
`persistent` flag separates the last two classes. -/
structure ReplicaRole where
  name : String
  serviceable : Bool
  writable : Bool
  persistent : Bool
deriving Repr, DecidableEq

/-- Modelled from the spec: the rank of a single role, "derived from its
serviceable/writable attributes (a writable+serviceable role ranks above a
serviceable-only role, which ranks above a non-serviceable persistence role,
which ranks above a role still catching up)" (§4.5).  An undeclared role name
ranks below every declared role (rank 0, see `ComposeRolePriorityMap`). -/
def rolePriority (role : ReplicaRole) : Nat :=
  if role.serviceable && role.writable then 4
  else if role.serviceable then 3
  else if role.persistent then 2
  else 1

/-- Modelled from the spec: `ComposeRolePriorityMap(roleList) → mapping from
role name to integer rank` (§6), built from the declared role list; a name not
declared in the list maps to the lowest rank 0. -/
def ComposeRolePriorityMap (roles : List ReplicaRole) : String → Nat :=
  fun n =>
    match roles.find? (fun r => r.name == n) with
    | some r => rolePriority r
    | none => 0

/-- Modelled from the spec: `MemberStatus: {instanceName, role}` (§3). -/
structure MemberStatus where
  podName : String
  roleName : String
deriving Repr, DecidableEq

/-- The comparator used by `sortMembersStatus`: member `a` may precede
member `b` when `a`'s role priority is at least `b`'s (descending order). -/
def memberLE (priorityMap : String → Nat) (a b : MemberStatus) : Prop :=
  priorityMap b.roleName ≤ priorityMap a.roleName

instance (priorityMap : String → Nat) : DecidableRel (memberLE priorityMap) :=
  fun a b => Nat.decLe _ _

/-- Modelled from the spec: `sortMembersStatus` orders a member-status list by
"strictly descending priority; ties broken by preserving the relative order of
the input list (stable sort), never by name" (§4.5).  Embedded as a stable
insertion sort under `memberLE`. -/
def sortMembersStatus (membersStatus : List MemberStatus)
    (priorityMap : String → Nat) : List MemberStatus :=
  List.insertionSort (memberLE priorityMap) membersStatus

/-- Modelled from the spec: an instance — "one running unit", carrying a
revision label, a role label, a phase (empty until the unit is observed
created), a readiness condition and the time (seconds) that condition has
held, and a deletion (terminating) mark. -/
structure Pod where
  name : String
  roleLabel : String
  revisionLabel : String
  phase : String
  readyCondTrue : Bool
  readyAgeSeconds : Nat
  terminating : Bool
deriving Repr, DecidableEq

/-- A pod counts as an observed (created) instance once it has a phase. -/
def isCreated (p : Pod) : Bool := p.phase != ""

/-- Modelled from the spec: a named instance template, which "may override
replica count" and the template body (§3). -/
structure InstanceTemplate where
  name : String
  replicas : Option Nat
  body : Option String
deriving Repr, DecidableEq

/-- Modelled from the spec: the specification block — desired replica count,
named instance templates, declared role list, pod-management policy,
minimum-ready duration (§3). -/
structure InstanceSetSpec where
  replicas : Nat
  parallelPodManagement : Bool
  minReadySeconds : Nat
  roles : List ReplicaRole
  template : String
  instances : List InstanceTemplate
deriving Repr, DecidableEq

/-- Modelled from the spec: the status block (§3).  `updateRevisions` is kept
in its serialized form (one `name=revision` entry per element), as produced by
the revision reconciler and parsed back by `getUpdateRevisions`. -/
structure InstanceSetStatus where
  replicas : Nat
  readyReplicas : Nat
  availableReplicas : Nat
  updatedReplicas : Nat
  currentReplicas : Nat
  currentRevisions : List (String × String)
  updateRevisions : List String
  membersStatus : List MemberStatus
  currentGeneration : Nat
deriving Repr, DecidableEq

/-- The zero status every counter and list empty. -/
def emptyStatus : InstanceSetStatus :=
  { replicas := 0, readyReplicas := 0, availableReplicas := 0,
    updatedReplicas := 0, currentReplicas := 0, currentRevisions := [],
    updateRevisions := [], membersStatus := [], currentGeneration := 0 }

/-- Modelled from the spec: the root InstanceSet resource: name, generation,
specification and status. -/
structure InstanceSet where
  name : String
  generation : Nat
  spec : InstanceSetSpec
  status : InstanceSetStatus
deriving Repr, DecidableEq

/-- Modelled from the spec: the per-pass Object Tree — "snapshot combining the
root specification resource and all its dependent observed objects (instances,
revision records, auxiliary objects)" (§2).  `revisions` is the tracked
revision history (ids); `assistantObjects` counts auxiliary objects such as
the headless discovery endpoint. -/
structure ObjectTree where
  root : InstanceSet
  pods : List Pod
  revisions : List String
  assistantObjects : Nat
deriving Repr, DecidableEq

/-! ## Serialized revision mapping and its parser -/

/-- The character standing between an instance name and its revision id in a
serialized revision entry. -/
def eqChar : Char := '='

/-- Split a character list at its first `'='`, returning the part before and
the part after; `none` when no `'='` occurs. -/
def splitAtEq : List Char → Option (List Char × List Char)
  | [] => none
  | c :: rest =>
    if c = eqChar then some ([], rest)
    else (splitAtEq rest).map (fun p => (c :: p.1, p.2))

/-- Parse one serialized `name=revision` entry. -/
def parseRevisionEntry (s : String) : Option (String × String) :=
  (splitAtEq s.data).map (fun p => (String.mk p.1, String.mk p.2))

/-- Serialize one `(name, revision)` pair as `name=revision`. -/
def serializeRevisionEntry (e : String × String) : String :=
  e.1 ++ "=" ++ e.2

/-- Serialize an instance-name → revision-id mapping, one entry per element. -/
def serializeRevisions (m : List (String × String)) : List String :=
  m.map serializeRevisionEntry

/-- Modelled from the spec: the revision lookup helper — "parses the
serialized `updateRevisions` status field back into a mapping from instance
name to revision id; fails with a parse error if the serialized form is
malformed" (§6).  (The helper's implementation is not under `src/`; only its
caller in the status-reconciler test is.) -/
def getUpdateRevisions : List String → Except String (List (String × String))
  | [] => .ok []
  | e :: rest =>
    match parseRevisionEntry e with
    | none => .error ("malformed revision entry: " ++ e)
    | some nr => (getUpdateRevisions rest).map (fun m => nr :: m)

/-- Look an instance name up in a revision mapping. -/
def lookupRevision (m : List (String × String)) (n : String) : Option String :=
  (m.find? (fun e => e.1 == n)).map (fun e => e.2)

/-! ## Deterministic content hashing and instance naming -/

/-- The decimal digit characters. -/
def digitChar (d : Nat) : Char := Char.ofNat (48 + d)

/-- Fuel-driven decimal printer of the digits of `n`, most significant first
once the accumulator is unwound. -/
def natToStrAux : Nat → Nat → List Char → List Char
  | 0, _, acc => acc
  | _ + 1, 0, acc => acc
  | fuel + 1, n + 1, acc =>
    natToStrAux fuel ((n + 1) / 10) (digitChar ((n + 1) % 10) :: acc)

/-- Decimal rendering of a natural number (self-contained so its character
alphabet is provable). -/
def natToStr (n : Nat) : String :=
  if n = 0 then "0" else String.mk (natToStrAux n n [])

/-- Modelled from the spec: "compute a deterministic content hash of the
template body" (§4.3); embedded as a simple polynomial character hash
(deterministic by construction). -/
def templateHash (body : String) : Nat :=
  body.data.foldl (fun h c => h * 31 + c.toNat) 7

/-- The content-addressed revision id a template body resolves to, prefixed
with the owning resource's name. -/
def revisionID (parent : String) (body : String) : String :=
  parent ++ "-" ++ natToStr (templateHash body)

/-- The replica count a named instance template consumes from the default
pool (defaulting to one). -/
def templateReplicaCount (t : InstanceTemplate) : Nat := t.replicas.getD 1

/-- Modelled from the spec: the size of the default instance pool — desired
replicas "minus/plus named-template overrides (each named template either
consumes from the default pool or adds/subtracts a fixed replica count)"
(§4.4). -/
def defaultPoolSize (spec : InstanceSetSpec) : Nat :=
  spec.replicas - (spec.instances.map templateReplicaCount).sum

/-- Modelled from the spec: the desired instance-name set together with the
template body each instance resolves to — ordinal names from the default
pool, then per-template ordinal names (§4.4). -/
def desiredInstances (its : InstanceSet) : List (String × String) :=
  (List.range (defaultPoolSize its.spec)).map
      (fun i => (its.name ++ "-" ++ natToStr i, its.spec.template)) ++
    (its.spec.instances.map (fun t =>
      (List.range (templateReplicaCount t)).map
        (fun i => (its.name ++ "-" ++ t.name ++ "-" ++ natToStr i,
                   t.body.getD its.spec.template)))).flatten

/-- Modelled from the spec: the authoritative `updateRevisions` mapping — "a
mapping from each desired instance name to the revision id that its template
hash currently resolves to" (§4.3). -/
def updateRevisionsOf (its : InstanceSet) : List (String × String) :=
  (desiredInstances its).map (fun nb => (nb.1, revisionID its.name nb.2))

/-! ## The reconciler pipeline -/

/-- Modelled from the spec: the meta-fix reconciler "normalizes/defaults the
specification-derived metadata so downstream stages see consistent input"
(§2); the normalized metadata (labels, finalizers) lies outside the fields
this embedding tracks, so the tree passes through unchanged. -/
def NewFixMetaReconciler (tree : ObjectTree) : Except String ObjectTree :=
  .ok tree

/-- Modelled from the spec: the revision-update reconciler — computes the
content hash of each instance template, records any new revision id in the
tracked history, and "produces `updateRevisions`: a mapping from each desired
instance name to the revision id that its template hash currently resolves
to" (§4.3), stored serialized in the status block.  (History truncation
beyond the retained-revision limit is not reached by any tracked scenario and
is not modelled.) -/
def NewRevisionUpdateReconciler (tree : ObjectTree) : Except String ObjectTree :=
  let m := updateRevisionsOf tree.root
  .ok { tree with
          revisions := (tree.revisions ++ m.map (fun e => e.2)).dedup,
          root := { tree.root with
                      status := { tree.root.status with
                                    updateRevisions := serializeRevisions m } } }

/-- Modelled from the spec: the assistant-object reconciler "ensures
supporting objects (e.g. a headless discovery endpoint) exist" (§2). -/
def NewAssistantObjectReconciler (tree : ObjectTree) : Except String ObjectTree :=
  .ok { tree with assistantObjects := max tree.assistantObjects 1 }

/-- A pod as just created by the alignment reconciler: it carries the
revision label resolved for its name, but no phase (it has not been observed
running) and no readiness. -/
def newPod (n : String) (rev : String) : Pod :=
  { name := n, roleLabel := "", revisionLabel := rev, phase := "",
    readyCondTrue := false, readyAgeSeconds := 0, terminating := false }

/-- Modelled from the spec: the replicas-alignment reconciler —
"creates/removes instances so the observed set matches the desired
named/templated set" (§2); "each create carries the revision id resolved from
`updateRevisions` for that name" (§4.4).  Under `Parallel` policy all missing
instances are created in one pass; surplus instances are removed.  (The
`OrderedReady` readiness gating concerns pass scheduling, not the shape
verified here.) -/
def NewReplicasAlignmentReconciler (tree : ObjectTree) : Except String ObjectTree :=
  (getUpdateRevisions tree.root.status.updateRevisions).map (fun updateRevs =>
    let desired := (desiredInstances tree.root).map (fun nb => nb.1)
    let kept := tree.pods.filter (fun p => desired.contains p.name)
    let missing := desired.filter (fun n => !(tree.pods.any (fun p => p.name == n)))
    let created := missing.map (fun n => newPod n ((lookupRevision updateRevs n).getD ""))
    { tree with pods := kept ++ created })

/-- Whether a pod's revision label equals its entry in the update-revision
mapping (no entry counts as not updated). -/
def isPodUpdated (updateRevs : List (String × String)) (p : Pod) : Bool :=
  match lookupRevision updateRevs p.name with
  | some r => p.revisionLabel == r
  | none => false

/-- The member entry built from a pod's currently observed labels. -/
def memberOfPod (p : Pod) : MemberStatus :=
  { podName := p.name, roleName := p.roleLabel }

/-- The member entries of the instances whose readiness condition is
currently true, in observation order. -/
def readyEntries (pods : List Pod) : List MemberStatus :=
  (pods.filter (fun p => p.readyCondTrue)).map memberOfPod

/-- Modelled from the spec: `setMembersStatus` — "for every observed instance
whose readiness condition is currently true, create/replace a member entry
using that instance's currently observed role label; instances not currently
Ready are dropped from the list entirely, even if they had a prior entry",
then ordered by `sortMembersStatus` using the role priority map (§4.5).
The prior `membersStatus` is never consulted. -/
def computeMembersStatus (roles : List ReplicaRole) (pods : List Pod) :
    List MemberStatus :=
  sortMembersStatus (readyEntries pods) (ComposeRolePriorityMap roles)

/-- `setMembersStatus` as called by the repository's test: rebuilds the
status block's `membersStatus` from the current pods, replacing whatever was
recorded before. -/
def setMembersStatus (its : InstanceSet) (pods : List Pod) : InstanceSet :=
  { its with
      status := { its.status with
                    membersStatus := computeMembersStatus its.spec.roles pods } }

/-- Modelled from the spec and the repository's test: the status summary of
one Status Reconciler pass (§4.5).
* `replicas` counts observed (created) instances;
* `readyReplicas` counts observed instances whose readiness condition is
  true; `availableReplicas` those whose condition has held for at least
  `minReadySeconds`;
* `updatedReplicas` counts created, non-terminating instances whose revision
  label equals their `updateRevisions` entry;
* `currentRevisions` pairs each observed instance with its revision label
  when that revision is present in tracked history;
* `currentReplicas`: the spec's words ("mirrors `currentRevisions`
  population") contradict the repository's own test (Scenarios B and C, which
  expect `currentReplicas = 7` both when every revision is unrecognized and
  when every instance is updated); the test's values are followed:
  `currentReplicas` counts created, non-terminating instances that are not
  counted as updated, except that when all desired replicas are present and
  updated it equals the desired total;
* `currentGeneration` is the specification's generation. -/
def computeStatus (its : InstanceSet) (revisions : List String)
    (updateRevs : List (String × String)) (pods : List Pod) :
    InstanceSetStatus :=
  let replicas := pods.countP (fun p => isCreated p)
  let readyReplicas := pods.countP (fun p => isCreated p && p.readyCondTrue)
  let availableReplicas := pods.countP (fun p =>
    isCreated p && p.readyCondTrue &&
      decide (its.spec.minReadySeconds ≤ p.readyAgeSeconds))
  let updatedReplicas := pods.countP (fun p =>
    isCreated p && !p.terminating && isPodUpdated updateRevs p)
  let currentLoop := pods.countP (fun p =>
    isCreated p && !p.terminating && !(isPodUpdated updateRevs p))
  let total := its.spec.replicas
  let currentReplicas :=
    if replicas = total ∧ updatedReplicas = total then total else currentLoop
  let currentRevisions :=
    (pods.filter (fun p => isCreated p && revisions.contains p.revisionLabel)).map
      (fun p => (p.name, p.revisionLabel))
  { replicas := replicas, readyReplicas := readyReplicas,
    availableReplicas := availableReplicas,
    updatedReplicas := updatedReplicas, currentReplicas := currentReplicas,
    currentRevisions := currentRevisions,
    updateRevisions := its.status.updateRevisions,
    membersStatus := computeMembersStatus its.spec.roles pods,
    currentGeneration := its.generation }

/-- Modelled from the spec: the status reconciler "recomputes the full status
block each pass" (§4.5); it first parses the serialized `updateRevisions`
field and surfaces a parse failure as the pass's error (§7). -/
def NewStatusReconciler (tree : ObjectTree) : Except String ObjectTree :=
  (getUpdateRevisions tree.root.status.updateRevisions).map (fun updateRevs =>
    { tree with
        root := { tree.root with
                    status := computeStatus tree.root tree.revisions updateRevs
                                tree.pods } })

/-- Modelled from the spec: one full pass — "each pass builds one Object Tree
... and threads it through the five reconcilers in fixed order" (§2). -/
def runPipeline (tree : ObjectTree) : Except String ObjectTree :=
  NewFixMetaReconciler tree >>= NewRevisionUpdateReconciler >>=
    NewAssistantObjectReconciler >>= NewReplicasAlignmentReconciler >>=
      NewStatusReconciler

/-! ## The test configuration (Scenarios A–E of the status-reconciler test) -/

/-- The declared role list of the test suite: leader (writable+serviceable),
follower (serviceable-only), logger (non-serviceable persistence), learner
(still catching up). -/
def testRoles : List ReplicaRole :=
  [{ name := "leader", serviceable := true, writable := true, persistent := true },
   { name := "follower", serviceable := true, writable := false, persistent := true },
   { name := "logger", serviceable := false, writable := false, persistent := true },
   { name := "learner", serviceable := false, writable := false, persistent := false }]

/-- The InstanceSet of the status-reconciler test: generation 1, 7 desired
replicas, `Parallel` policy, one named template `hello` (one replica) and one
named template `foo` (two replicas). -/
def testITS : InstanceSet :=
  { name := "bar", generation := 1,
    spec := { replicas := 7, parallelPodManagement := true,
              minReadySeconds := 5, roles := testRoles,
              template := "base-template",
              instances := [{ name := "hello", replicas := none, body := none },
                            { name := "foo", replicas := some 2, body := none }] },
    status := emptyStatus }

/-- The initial Object Tree of the test: the root alone, nothing observed. -/
def testTree0 : ObjectTree :=
  { root := testITS, pods := [], revisions := [], assistantObjects := 0 }

/-- The tree after the Scenario-A pass (meta-fix → revision → assistant →
alignment → status) with zero Ready instances. -/
def scenarioATree : ObjectTree :=
  (runPipeline testTree0).toOption.getD testTree0

/-- Mark a pod the way the test's `makePodAvailableWithOldRevision` does: set
the given revision label, phase `Running`, and a readiness condition that has
held longer than `minReadySeconds`. -/
def makePodAvailable (rev : String) (p : Pod) : Pod :=
  { p with revisionLabel := rev, phase := "Running",
           readyCondTrue := true, readyAgeSeconds := 6 }

/-- Scenario B input: every instance of Scenario A marked Ready with the
unrecognized revision label `old-revision`. -/
def scenarioBTree : ObjectTree :=
  { scenarioATree with
      pods := scenarioATree.pods.map (makePodAvailable "old-revision") }

/-- The tree after the Scenario-B status pass. -/
def scenarioBResult : ObjectTree :=
  (NewStatusReconciler scenarioBTree).toOption.getD scenarioBTree

/-- The update-revision mapping parsed back from the status field, as the
test does before re-labelling. -/
def scenarioUpdateRevs : List (String × String) :=
  (getUpdateRevisions scenarioBResult.root.status.updateRevisions).toOption.getD []

/-- Scenario C input: every instance re-labelled with its own entry from the
parsed `updateRevisions` mapping. -/
def scenarioCTree : ObjectTree :=
  { scenarioBResult with
      pods := scenarioBResult.pods.map (fun p =>
        makePodAvailable ((lookupRevision scenarioUpdateRevs p.name).getD "") p) }

/-- The tree after the Scenario-C status pass. -/
def scenarioCResult : ObjectTree :=
  (NewStatusReconciler scenarioCTree).toOption.getD scenarioCTree

/-! ## Correctness of the member-status sort -/

instance (priorityMap : String → Nat) :
    IsTotal MemberStatus (memberLE priorityMap) :=
  ⟨fun a b => Nat.le_total (priorityMap b.roleName) (priorityMap a.roleName)⟩

instance (priorityMap : String → Nat) :
    IsTrans MemberStatus (memberLE priorityMap) :=
  ⟨fun _ _ _ h1 h2 => Nat.le_trans h2 h1⟩

theorem sortMembersStatus_perm (l : List MemberStatus) (pm : String → Nat) :
    (sortMembersStatus l pm).Perm l :=
  List.perm_insertionSort (memberLE pm) l

theorem sortMembersStatus_sorted (l : List MemberStatus) (pm : String → Nat) :
    List.Sorted (memberLE pm) (sortMembersStatus l pm) :=
  List.sorted_insertionSort (memberLE pm) l

theorem sortMembersStatus_of_sorted {l : List MemberStatus} {pm : String → Nat}
    (h : List.Sorted (memberLE pm) l) : sortMembersStatus l pm = l :=
  h.insertionSort_eq

/-- Stability of `sortMembersStatus`: for every priority value, the entries
holding that priority appear in the output exactly as they appear in the
input. -/
theorem sortMembersStatus_filter_priority (l : List MemberStatus)
    (pm : String → Nat) (q : Nat) :
    (sortMembersStatus l pm).filter (fun m => pm m.roleName == q)
      = l.filter (fun m => pm m.roleName == q) := by
  have hall : ∀ a ∈ l.filter (fun m => pm m.roleName == q),
      (fun m : MemberStatus => pm m.roleName == q) a = true :=
    fun a ha => (List.mem_filter.mp ha).2
  have hpair : (l.filter (fun m => pm m.roleName == q)).Pairwise (memberLE pm) := by
    refine List.pairwise_of_forall_mem_list (fun a ha b hb => ?_)
    have ha' : pm a.roleName = q := by simpa using hall a ha
    have hb' : pm b.roleName = q := by simpa using hall b hb
    simp [memberLE, ha', hb']
  have hsub : (l.filter (fun m => pm m.roleName == q)).Sublist
      (sortMembersStatus l pm) :=
    List.sublist_insertionSort hpair (List.filter_sublist l)
  have hsub2 : (l.filter (fun m => pm m.roleName == q)).Sublist
      ((sortMembersStatus l pm).filter (fun m => pm m.roleName == q)) := by
    have h2 := List.Sublist.filter (fun m : MemberStatus => pm m.roleName == q) hsub
    rwa [List.filter_eq_self.mpr hall] at h2
  have hlen : ((sortMembersStatus l pm).filter (fun m => pm m.roleName == q)).length
      = (l.filter (fun m => pm m.roleName == q)).length :=
    ((sortMembersStatus_perm l pm).filter _).length_eq
  exact (hsub2.eq_of_length hlen.symm).symm

/-! ## Counting lemmas -/

/-- No ready entry carries the name of an instance outside the pod set. -/
theorem countP_readyEntries_eq_zero (pods : List Pod) (n : String)
    (h : ∀ p ∈ pods, p.name ≠ n) :
    (readyEntries pods).countP (fun m => m.podName == n) = 0 := by
  refine List.countP_eq_zero.mpr (fun m hm => ?_)
  simp only [readyEntries, List.mem_map, List.mem_filter] at hm
  obtain ⟨p, ⟨hp, _⟩, rfl⟩ := hm
  simpa [memberOfPod] using h p hp

/-- Under distinct pod names, the ready entries carry each name once when its
pod is ready, and never otherwise. -/
theorem countP_readyEntries (pods : List Pod) (n : String)
    (h : (pods.map Pod.name).Nodup) :
    (readyEntries pods).countP (fun m => m.podName == n)
      = if pods.any (fun p => p.readyCondTrue && p.name == n) then 1 else 0 := by
  induction pods with
  | nil => rfl
  | cons p ps ih =>
    rw [List.map_cons, List.nodup_cons] at h
    by_cases hr : p.readyCondTrue = true
    · have hstep : readyEntries (p :: ps) = memberOfPod p :: readyEntries ps := by
        simp [readyEntries, List.filter_cons, hr]
      by_cases hn : p.name = n
      · have hzero : (readyEntries ps).countP (fun m => m.podName == n) = 0 := by
        -- every later pod has a different name
          refine countP_readyEntries_eq_zero ps n (fun q hq he => h.1 ?_)
          rw [hn, ← he]
          exact List.mem_map_of_mem Pod.name hq
        rw [hstep, List.countP_cons, hzero]
        simp [memberOfPod, hn, List.any_cons, hr]
      · rw [hstep, List.countP_cons, ih h.2]
        simp [memberOfPod, hn, List.any_cons, hr]
    · have hstep : readyEntries (p :: ps) = readyEntries ps := by
        simp [readyEntries, List.filter_cons, hr]
      rw [hstep, ih h.2]
      simp [List.any_cons, Bool.eq_false_iff.mpr hr]

/-- Splitting a count over a Boolean refinement of the predicate. -/
theorem countP_and_not_add_countP_and {α : Type} (l : List α) (a b : α → Bool) :
    l.countP (fun x => a x && !(b x)) + l.countP (fun x => a x && b x)
      = l.countP a := by
  induction l with
  | nil => rfl
  | cons x xs ih =>
    simp only [List.countP_cons]
    cases hax : a x <;> cases hbx : b x <;> simp [hax, hbx] <;> omega

/-- Looking a declared role up in the composed priority map yields exactly
that role's rank when role names are distinct. -/
theorem composeRolePriorityMap_mem {roles : List ReplicaRole} {r : ReplicaRole}
    (h : (roles.map ReplicaRole.name).Nodup) (hr : r ∈ roles) :
    ComposeRolePriorityMap roles r.name = rolePriority r := by
  induction roles with
  | nil => cases hr
  | cons a rs ih =>
    rw [List.map_cons, List.nodup_cons] at h
    rcases List.mem_cons.mp hr with rfl | hmem
    · simp [ComposeRolePriorityMap, List.find?_cons]
    · have hne : (a.name == r.name) = false := by
        refine beq_eq_false_iff_ne.mpr (fun he => h.1 ?_)
        exact he ▸ List.mem_map_of_mem ReplicaRole.name hmem
      have := ih h.2 hmem
      simpa [ComposeRolePriorityMap, List.find?_cons, hne] using this

/-! ## Parsing lemmas for the serialized revision mapping -/

theorem splitAtEq_append (a b : List Char) (h : eqChar ∉ a) :
    splitAtEq (a ++ eqChar :: b) = some (a, b) := by
  induction a with
  | nil => simp [splitAtEq]
  | cons c cs ih =>
    have hc : ¬c = eqChar := fun he => h (he ▸ List.mem_cons_self c cs)
    rw [List.cons_append, splitAtEq, if_neg hc,
      ih (fun hm => h (List.mem_cons_of_mem c hm))]
    rfl

theorem splitAtEq_eq_none (s : List Char) :
    splitAtEq s = none ↔ eqChar ∉ s := by
  induction s with
  | nil => simp [splitAtEq]
  | cons c cs ih =>
    rw [splitAtEq]
    by_cases hc : c = eqChar
    · simp [hc]
    · simp [hc, Option.map_eq_none', ih, eq_comm (a := eqChar)]

theorem parseRevisionEntry_serialize (e : String × String)
    (h : eqChar ∉ e.1.data) :
    parseRevisionEntry (serializeRevisionEntry e) = some e := by
  have hdata : (serializeRevisionEntry e).data = e.1.data ++ eqChar :: e.2.data := by
    simp [serializeRevisionEntry, String.data_append]
    rfl
  rw [parseRevisionEntry, hdata, splitAtEq_append _ _ h]
  rfl

theorem getUpdateRevisions_serializeRevisions (m : List (String × String))
    (h : ∀ e ∈ m, eqChar ∉ e.1.data) :
    getUpdateRevisions (serializeRevisions m) = .ok m := by
  induction m with
  | nil => rfl
  | cons e rest ih =>
    have he := parseRevisionEntry_serialize e (h e (List.mem_cons_self e rest))
    have hrest := ih (fun x hx => h x (List.mem_cons_of_mem e hx))
    simp [serializeRevisions, getUpdateRevisions, he] at *
    simp [hrest, Except.map]

/-- The parser fails exactly on a malformed field: one holding an entry with
no name/revision separator. -/
theorem getUpdateRevisions_error_iff (field : List String) :
    (∃ msg, getUpdateRevisions field = .error msg)
      ↔ ∃ e ∈ field, eqChar ∉ e.data := by
  induction field with
  | nil => simp [getUpdateRevisions]
  | cons e rest ih =>
    rw [getUpdateRevisions]
    by_cases hp : parseRevisionEntry e = none
    · have : eqChar ∉ e.data := by
        rw [parseRevisionEntry, Option.map_eq_none'] at hp
        exact (splitAtEq_eq_none e.data).mp hp
      simp only [hp]
      simp [this]
    · obtain ⟨nr, hnr⟩ := Option.ne_none_iff_exists'.mp hp
      have hmem : eqChar ∈ e.data := by
        by_contra hc
        rw [parseRevisionEntry, Option.map_eq_none'.mpr
          ((splitAtEq_eq_none e.data).mpr hc)] at hnr
        cases hnr
      rw [hnr]
      constructor
      · rintro ⟨msg, hmsg⟩
        cases hrest : getUpdateRevisions rest with
        | ok v => rw [hrest] at hmsg; cases hmsg
        | error msg2 =>
          refine (ih.mp ⟨msg2, hrest⟩).imp (fun x hx => ?_)
          exact ⟨List.mem_cons_of_mem e hx.1, hx.2⟩
      · rintro ⟨x, hx, hxe⟩
        rcases List.mem_cons.mp hx with rfl | hx'
        · exact absurd hmem hxe
        · obtain ⟨msg2, hmsg2⟩ := ih.mpr ⟨x, hx', hxe⟩
          exact ⟨msg2, by rw [hmsg2]; rfl⟩

/-! ## Generated instance names never contain the separator character -/

theorem digitChar_ne_eqChar {d : Nat} (h : d < 10) : digitChar d ≠ eqChar := by
  interval_cases d <;> decide

theorem eqChar_not_mem_natToStrAux (fuel : Nat) :
    ∀ (n : Nat) (acc : List Char), eqChar ∉ acc →
      eqChar ∉ natToStrAux fuel n acc := by
  induction fuel with
  | zero => intro n acc h; simpa [natToStrAux] using h
  | succ f ih =>
    intro n acc h
    cases n with
    | zero => simpa [natToStrAux] using h
    | succ k =>
      rw [natToStrAux]
      refine ih _ _ (fun hm => ?_)
      rcases List.mem_cons.mp hm with he | he
      · exact digitChar_ne_eqChar (Nat.mod_lt _ (by omega)) he.symm
      · exact h he

theorem eqChar_not_mem_natToStr (n : Nat) : eqChar ∉ (natToStr n).data := by
  rw [natToStr]
  by_cases h : n = 0
  · simp only [h, if_pos rfl]
    decide
  · rw [if_neg h]
    exact eqChar_not_mem_natToStrAux n n [] (by simp)

theorem eqChar_not_mem_append {a b : String} (ha : eqChar ∉ a.data)
    (hb : eqChar ∉ b.data) : eqChar ∉ (a ++ b).data := by
  rw [String.data_append]
  intro hm
  rcases List.mem_append.mp hm with h | h
  · exact ha h
  · exact hb h

theorem eqChar_not_mem_dash : eqChar ∉ ("-" : String).data := by decide

/-- Every desired instance name is the resource name, dashes, template names
and ordinals; none introduces the separator character. -/
theorem eqChar_not_mem_desired_name (its : InstanceSet)
    (hroot : eqChar ∉ its.name.data)
    (hts : ∀ t ∈ its.spec.instances, eqChar ∉ t.name.data) :
    ∀ e ∈ updateRevisionsOf its, eqChar ∉ e.1.data := by
  intro e he
  simp only [updateRevisionsOf, List.mem_map] at he
  obtain ⟨nb, hnb, rfl⟩ := he
  simp only [desiredInstances, List.mem_append, List.mem_map, List.mem_flatten,
    List.mem_range] at hnb
  rcases hnb with ⟨i, _, rfl⟩ | ⟨l, ⟨t, ht, rfl⟩, hl⟩
  · exact eqChar_not_mem_append (eqChar_not_mem_append hroot eqChar_not_mem_dash)
      (eqChar_not_mem_natToStr i)
  · simp only [List.mem_map, List.mem_range] at hl
    obtain ⟨i, _, rfl⟩ := hl
    exact eqChar_not_mem_append
      (eqChar_not_mem_append
        (eqChar_not_mem_append
          (eqChar_not_mem_append hroot eqChar_not_mem_dash) (hts t ht))
        eqChar_not_mem_dash)
      (eqChar_not_mem_natToStr i)

/-! ## Data of Scenarios D and E -/

/-- A pod carrying only a name, a role label and a readiness condition, as
built by the setMembersStatus test. -/
def labelledPod (n : String) (role : String) (ready : Bool) : Pod :=
  { name := n, roleLabel := role, revisionLabel := "", phase := "",
    readyCondTrue := ready, readyAgeSeconds := 0, terminating := false }

/-- Scenario D pods: pod-0 follower (ready), pod-1 leader (ready), pod-2
follower (not ready). -/
def scenarioDPods : List Pod :=
  [labelledPod "pod-0" "follower" true,
   labelledPod "pod-1" "leader" true,
   labelledPod "pod-2" "follower" false]

/-- Scenario D prior member status: pod-0 leader, pod-1 follower, pod-2
follower. -/
def scenarioDPrior : List MemberStatus :=
  [{ podName := "pod-0", roleName := "leader" },
   { podName := "pod-1", roleName := "follower" },
   { podName := "pod-2", roleName := "follower" }]

/-- The InstanceSet on which the setMembersStatus test runs: three desired
replicas and the prior member status recorded. -/
def scenarioDITS : InstanceSet :=
  { testITS with
      spec := { testITS.spec with replicas := 3 },
      status := { testITS.status with membersStatus := scenarioDPrior } }

/-- Scenario E members: roles follower, learner, learner, leader, logger on
pod-0 … pod-4. -/
def scenarioEMembers : List MemberStatus :=
  [{ podName := "pod-0", roleName := "follower" },
   { podName := "pod-1", roleName := "learner" },
   { podName := "pod-2", roleName := "learner" },
   { podName := "pod-3", roleName := "leader" },
   { podName := "pod-4", roleName := "logger" }]

/-! ## Claim theorems -/

/-- C3: setMembersStatus builds each member entry from the pod's currently
observed role label, never from any previously recorded role, and drops every
instance whose readiness condition is not currently true even if it had a
prior entry; the recorded list does not depend on the prior status block at
all, and on Scenario D it is exactly [{pod-1, leader}, {pod-0, follower}]. -/
theorem setMembersStatus_from_observation (its1 its2 : InstanceSet)
    (pods : List Pod) (hroles : its1.spec.roles = its2.spec.roles) :
    (setMembersStatus its1 pods).status.membersStatus
        = (setMembersStatus its2 pods).status.membersStatus
    ∧ (setMembersStatus scenarioDITS scenarioDPods).status.membersStatus
        = [{ podName := "pod-1", roleName := "leader" },
           { podName := "pod-0", roleName := "follower" }] := by
  constructor
  · simp [setMembersStatus, computeMembersStatus, hroles]
  · decide

/-- Closed witness for the C3 theorem: the prior-status independence and the
Scenario D outcome at concrete inputs. -/
theorem setMembersStatus_from_observation_witness :
    (setMembersStatus scenarioDITS scenarioDPods).status.membersStatus
      = (setMembersStatus testITS scenarioDPods).status.membersStatus :=
  (setMembersStatus_from_observation scenarioDITS testITS scenarioDPods rfl).1

/-- C7: sortMembersStatus is a stable sort with respect to the role priority
map: applying it twice yields the same order as applying it once, and for
every priority value the entries holding that priority keep their pre-sort
relative order (in particular they are never reordered by name). -/
theorem sortMembersStatus_stable (l : List MemberStatus) (pm : String → Nat) :
    sortMembersStatus (sortMembersStatus l pm) pm = sortMembersStatus l pm
    ∧ ∀ q : Nat,
        (sortMembersStatus l pm).filter (fun m => pm m.roleName == q)
          = l.filter (fun m => pm m.roleName == q) :=
  ⟨sortMembersStatus_of_sorted (sortMembersStatus_sorted l pm),
   fun q => sortMembersStatus_filter_priority l pm q⟩

/-- C8: the order induced by ComposeRolePriorityMap ranks a
writable+serviceable role above a serviceable-only role, above a
non-serviceable persistence role, above a catching-up role; and sorting the
Scenario E members by the test's role map yields pod-3 (leader), pod-0
(follower), pod-4 (logger), pod-1 (learner), pod-2 (learner). -/
theorem composeRolePriorityMap_order (roles : List ReplicaRole)
    (rA rB rC rD : ReplicaRole) (h : (roles.map ReplicaRole.name).Nodup)
    (hA : rA ∈ roles) (hB : rB ∈ roles) (hC : rC ∈ roles) (hD : rD ∈ roles)
    (hAs : rA.serviceable = true) (hAw : rA.writable = true)
    (hBs : rB.serviceable = true) (hBw : rB.writable = false)
    (hCs : rC.serviceable = false) (hCp : rC.persistent = true)
    (hDs : rD.serviceable = false) (hDp : rD.persistent = false) :
    (ComposeRolePriorityMap roles rB.name < ComposeRolePriorityMap roles rA.name
      ∧ ComposeRolePriorityMap roles rC.name < ComposeRolePriorityMap roles rB.name
      ∧ ComposeRolePriorityMap roles rD.name < ComposeRolePriorityMap roles rC.name)
    ∧ sortMembersStatus scenarioEMembers (ComposeRolePriorityMap testRoles)
        = [{ podName := "pod-3", roleName := "leader" },
           { podName := "pod-0", roleName := "follower" },
           { podName := "pod-4", roleName := "logger" },
           { podName := "pod-1", roleName := "learner" },
           { podName := "pod-2", roleName := "learner" }] := by
  rw [composeRolePriorityMap_mem h hA, composeRolePriorityMap_mem h hB,
    composeRolePriorityMap_mem h hC, composeRolePriorityMap_mem h hD]
  refine ⟨⟨?_, ?_, ?_⟩, by decide⟩ <;>
    simp [rolePriority, hAs, hAw, hBs, hBw, hCs, hCp, hDs, hDp]

/-- Closed witness for the C8 theorem at the test's role list. -/
theorem composeRolePriorityMap_order_witness :
    ComposeRolePriorityMap testRoles "follower"
      < ComposeRolePriorityMap testRoles "leader" :=
  ((composeRolePriorityMap_order testRoles
      { name := "leader", serviceable := true, writable := true, persistent := true }
      { name := "follower", serviceable := true, writable := false, persistent := true }
      { name := "logger", serviceable := false, writable := false, persistent := true }
      { name := "learner", serviceable := false, writable := false, persistent := false }
      (by decide) (by decide) (by decide) (by decide) (by decide)
      rfl rfl rfl rfl rfl rfl rfl rfl).1).1

/-- C10: after every single Status Reconciler pass the produced status
satisfies availableReplicas ≤ readyReplicas ≤ replicas: each counter counts a
subset of the instances counted by the next. -/
theorem statusCounters_monotone (its : InstanceSet) (revisions : List String)
    (updateRevs : List (String × String)) (pods : List Pod) :
    (computeStatus its revisions updateRevs pods).availableReplicas
        ≤ (computeStatus its revisions updateRevs pods).readyReplicas
    ∧ (computeStatus its revisions updateRevs pods).readyReplicas
        ≤ (computeStatus its revisions updateRevs pods).replicas := by
  constructor
  · show pods.countP _ ≤ pods.countP _
    refine List.countP_mono_left (fun p _ hp => ?_)
    simp only [Bool.and_eq_true] at hp ⊢
    exact hp.1
  · show pods.countP _ ≤ pods.countP _
    refine List.countP_mono_left (fun p _ hp => ?_)
    simp only [Bool.and_eq_true] at hp ⊢
    exact hp.1

/-- C2: after every Status Reconciler pass, membersStatus contains exactly
the instances whose readiness condition is currently true — each such
instance exactly once, none that is not Ready — as entries built from current
observation, ordered by descending role priority with original relative order
preserved among equal-priority entries. -/
theorem membersStatus_exactly_ready (its : InstanceSet) (revisions : List String)
    (updateRevs : List (String × String)) (pods : List Pod)
    (h : (pods.map Pod.name).Nodup) :
    (∀ n : String,
      ((computeStatus its revisions updateRevs pods).membersStatus).countP
          (fun m => m.podName == n)
        = if pods.any (fun p => p.readyCondTrue && p.name == n) then 1 else 0)
    ∧ ((computeStatus its revisions updateRevs pods).membersStatus).Perm
        (readyEntries pods)
    ∧ List.Sorted (memberLE (ComposeRolePriorityMap its.spec.roles))
        ((computeStatus its revisions updateRevs pods).membersStatus)
    ∧ (∀ q : Nat,
        ((computeStatus its revisions updateRevs pods).membersStatus).filter
            (fun m => ComposeRolePriorityMap its.spec.roles m.roleName == q)
          = (readyEntries pods).filter
              (fun m => ComposeRolePriorityMap its.spec.roles m.roleName == q)) := by
  have hms : (computeStatus its revisions updateRevs pods).membersStatus
      = sortMembersStatus (readyEntries pods) (ComposeRolePriorityMap its.spec.roles) := rfl
  rw [hms]
  refine ⟨fun n => ?_, sortMembersStatus_perm _ _, sortMembersStatus_sorted _ _,
    fun q => sortMembersStatus_filter_priority _ _ q⟩
  rw [(sortMembersStatus_perm (readyEntries pods) _).countP_eq]
  exact countP_readyEntries pods n h

/-- Closed witness for the C2 theorem at the Scenario D pods: the not-Ready
pod-2 never appears. -/
theorem membersStatus_exactly_ready_witness :
    ((computeStatus scenarioDITS [] [] scenarioDPods).membersStatus).countP
        (fun m => m.podName == "pod-2") = 0 :=
  ((membersStatus_exactly_ready scenarioDITS [] [] scenarioDPods
      (by decide)).1 "pod-2").trans (by decide)

/-- A single created, non-terminating, non-updated pod used as a concrete
input for status counters. -/
def cexPod : Pod :=
  { name := "pod-a", roleLabel := "", revisionLabel := "stale",
    phase := "Running", readyCondTrue := false, readyAgeSeconds := 0,
    terminating := false }

/-- C1 counterexample: the Scenario-B tree of the repository's own test,
processed by the Status Reconciler, yields currentReplicas = 7 while
currentRevisions has no entries, so currentReplicas does not count the
entries of currentRevisions. -/
theorem currentReplicas_ne_currentRevisions_length :
    (NewStatusReconciler scenarioBTree).toOption = some scenarioBResult
    ∧ scenarioBResult.root.status.currentReplicas = 7
    ∧ scenarioBResult.root.status.currentRevisions.length = 0 := by
  refine ⟨by decide, by decide, by decide⟩

/-- C1 amended: currentReplicas counts the created, non-terminating instances
not counted as updated — so when not all desired replicas are updated,
currentReplicas + updatedReplicas equals replicas (absent terminating
instances) — and when all desired replicas are present and updated,
currentReplicas equals updatedReplicas. -/
theorem currentReplicas_characterization (its : InstanceSet)
    (revisions : List String) (updateRevs : List (String × String))
    (pods : List Pod) (hterm : ∀ p ∈ pods, p.terminating = false) :
    ((computeStatus its revisions updateRevs pods).replicas = its.spec.replicas
        ∧ (computeStatus its revisions updateRevs pods).updatedReplicas
            = its.spec.replicas →
      (computeStatus its revisions updateRevs pods).currentReplicas
        = (computeStatus its revisions updateRevs pods).updatedReplicas)
    ∧ (¬((computeStatus its revisions updateRevs pods).replicas
            = its.spec.replicas
        ∧ (computeStatus its revisions updateRevs pods).updatedReplicas
            = its.spec.replicas) →
      (computeStatus its revisions updateRevs pods).currentReplicas
          + (computeStatus its revisions updateRevs pods).updatedReplicas
        = (computeStatus its revisions updateRevs pods).replicas) := by
  have hcnt : pods.countP (fun p => isCreated p && !p.terminating)
      = pods.countP (fun p => isCreated p) := by
    refine List.countP_congr (fun p hp => ?_)
    simp [hterm p hp]
  constructor
  · rintro ⟨h1, h2⟩
    have hcond : (computeStatus its revisions updateRevs pods).currentReplicas
        = its.spec.replicas := by
      show (if _ ∧ _ then _ else _) = _
      exact if_pos ⟨h1, h2⟩
    rw [hcond, h2]
  · intro hn
    have hcond : (computeStatus its revisions updateRevs pods).currentReplicas
        = pods.countP (fun p =>
            isCreated p && !p.terminating && !(isPodUpdated updateRevs p)) := by
      show (if _ ∧ _ then _ else _) = _
      exact if_neg hn
    rw [hcond]
    show _ + pods.countP _ = pods.countP _
    rw [← hcnt]
    exact countP_and_not_add_countP_and pods
      (fun p => isCreated p && !p.terminating) (isPodUpdated updateRevs)

/-- Closed witness for the amended C1 theorem: one created stale pod under a
seven-replica specification. -/
theorem currentReplicas_characterization_witness :
    (computeStatus testITS [] [] [cexPod]).currentReplicas
        + (computeStatus testITS [] [] [cexPod]).updatedReplicas
      = (computeStatus testITS [] [] [cexPod]).replicas :=
  (currentReplicas_characterization testITS [] [] [cexPod]
      (by decide)).2 (by decide)

/-- C6: for the test's specification (7 desired instances, Parallel policy,
four declared roles), running meta-fix → revision → assistant → alignment →
status with zero Ready instances creates 7 instances in the tree, yet the
resulting status has every counter 0, empty currentRevisions, and
currentGeneration equal to the specification's generation. -/
theorem scenarioA_status :
    testITS.spec.replicas = 7
    ∧ testITS.spec.parallelPodManagement = true
    ∧ (runPipeline testTree0).toOption = some scenarioATree
    ∧ scenarioATree.pods.length = 7
    ∧ scenarioATree.pods.all (fun p => !p.readyCondTrue) = true
    ∧ scenarioATree.root.status.replicas = 0
    ∧ scenarioATree.root.status.readyReplicas = 0
    ∧ scenarioATree.root.status.availableReplicas = 0
    ∧ scenarioATree.root.status.updatedReplicas = 0
    ∧ scenarioATree.root.status.currentReplicas = 0
    ∧ scenarioATree.root.status.currentRevisions = []
    ∧ scenarioATree.root.status.currentGeneration = testITS.generation := by
  decide

/-- C4: marking all 7 instances Ready with an unrecognized revision label and
a readiness condition older than minReadySeconds yields replicas =
readyReplicas = availableReplicas = currentReplicas = 7, updatedReplicas = 0,
and no currentRevisions entries. -/
theorem scenarioB_status :
    scenarioBTree.pods.length = 7
    ∧ scenarioBTree.pods.all (fun p => p.readyCondTrue
        && decide (scenarioBTree.root.spec.minReadySeconds < p.readyAgeSeconds)
        && (p.revisionLabel == "old-revision")) = true
    ∧ scenarioBTree.revisions.contains "old-revision" = false
    ∧ (NewStatusReconciler scenarioBTree).toOption = some scenarioBResult
    ∧ scenarioBResult.root.status.replicas = 7
    ∧ scenarioBResult.root.status.readyReplicas = 7
    ∧ scenarioBResult.root.status.availableReplicas = 7
    ∧ scenarioBResult.root.status.currentReplicas = 7
    ∧ scenarioBResult.root.status.updatedReplicas = 0
    ∧ scenarioBResult.root.status.currentRevisions = [] := by
  decide

/-- C5: re-labelling every instance with its own entry from the parsed
updateRevisions mapping yields updatedReplicas = currentReplicas = 7 and
currentRevisions equal, as a mapping, to the updateRevisions field. -/
theorem scenarioC_status :
    scenarioCTree.pods.all (fun p =>
        p.revisionLabel == (lookupRevision scenarioUpdateRevs p.name).getD "") = true
    ∧ (NewStatusReconciler scenarioCTree).toOption = some scenarioCResult
    ∧ scenarioCResult.root.status.updatedReplicas = 7
    ∧ scenarioCResult.root.status.currentReplicas = 7
    ∧ (getUpdateRevisions scenarioCResult.root.status.updateRevisions).toOption
        = some scenarioCResult.root.status.currentRevisions := by
  decide

/-- C9: getUpdateRevisions returns the mapping from instance name to revision
id on every well-formed serialized field — in particular on the field the
Revision Reconciler itself produces — and fails with a parse error exactly
when the serialized form is malformed (an entry missing the separator). -/
theorem getUpdateRevisions_spec :
    (∀ m : List (String × String), (∀ e ∈ m, eqChar ∉ e.1.data) →
      getUpdateRevisions (serializeRevisions m) = Except.ok m)
    ∧ (∀ tree tree' : ObjectTree,
        NewRevisionUpdateReconciler tree = Except.ok tree' →
        eqChar ∉ tree.root.name.data →
        (∀ t ∈ tree.root.spec.instances, eqChar ∉ t.name.data) →
        getUpdateRevisions tree'.root.status.updateRevisions
          = Except.ok (updateRevisionsOf tree.root))
    ∧ (∀ field : List String,
        (∃ msg, getUpdateRevisions field = Except.error msg)
          ↔ ∃ e ∈ field, eqChar ∉ e.data) := by
  refine ⟨getUpdateRevisions_serializeRevisions, ?_, getUpdateRevisions_error_iff⟩
  intro tree tree' h hroot hts
  rw [NewRevisionUpdateReconciler] at h
  injection h with h
  rw [← h]
  exact getUpdateRevisions_serializeRevisions _
    (eqChar_not_mem_desired_name tree.root hroot hts)

/-- Closed witness for the C9 theorem: a concrete one-entry mapping
round-trips, and a concrete malformed field fails. -/
theorem getUpdateRevisions_spec_witness :
    getUpdateRevisions (serializeRevisions [("pod-0", "rev-1")])
      = Except.ok [("pod-0", "rev-1")]
    ∧ (∃ msg, getUpdateRevisions ["no-separator"] = Except.error msg) :=
  ⟨getUpdateRevisions_spec.1 [("pod-0", "rev-1")] (by decide),
   getUpdateRevisions_spec.2.2 ["no-separator"] |>.mpr
     ⟨"no-separator", by decide, by decide⟩⟩

end InstanceSet
